import Mathlib

/-!
A shallow embedding of `fs/erofs/super.c` from the alibaba-cloud-kernel tree:
the EROFS mount-time superblock decoding, device-table resolution, mount-option
parsing, remount and managed-cache logic, together with theorems about its
behaviour.  Machine integers are modelled as `Nat` (with explicit masking to
32 bits where the C arithmetic wraps), errno-style results as `Int` (0 means
success, a negative value is `-errno` exactly as in the C source), and
fallible metadata reads / device opens as explicit `Except`/`Option`-valued
parameters.
-/

set_option autoImplicit false

namespace Erofs

/-- errno value `EINVAL`. -/
def EINVAL : Int := 22

/-- errno value `EIO`. -/
def EIO : Int := 5

/-- errno value `EBADMSG`. -/
def EBADMSG : Int := 74

/-- errno value `EUCLEAN`, spelled `EFSCORRUPTED` in the kernel. -/
def EFSCORRUPTED : Int := 117

/-- `EROFS_BLKSIZ`: the single supported block size. -/
def EROFS_BLKSIZ : Nat := 4096

/-- `EROFS_SUPER_OFFSET`: byte offset of the superblock record in block 0. -/
def EROFS_SUPER_OFFSET : Nat := 1024

/-- `LOG_BLOCK_SIZE`: log2 of the supported block size. -/
def LOG_BLOCK_SIZE : Nat := 12

/-- `EROFS_SUPER_MAGIC_V1`: the on-disk magic constant. -/
def EROFS_SUPER_MAGIC_V1 : Nat := 0xE0F5E1E2

/-- `PAGE_SIZE` on the platforms this driver supports here. -/
def PAGE_SIZE : Nat := 4096

/-- One byte step of the bit-reflected CRC-32C (Castagnoli polynomial,
reflected representation `0x82F63B78`), as computed by the kernel library
function `crc32c` used at super.c:64. -/
def crc32cByte (crc b : Nat) : Nat :=
  (List.range 8).foldl
    (fun c _ => if c % 2 = 1 then (c / 2) ^^^ 0x82F63B78 else c / 2)
    ((crc ^^^ b) % 2 ^ 32)

/-- CRC-32C of a byte list, starting from `seed` (the kernel `crc32c(seed,
buf, len)`; super.c passes `~0` as the seed and applies no final inversion). -/
def crc32c (seed : Nat) (data : List Nat) : Nat :=
  data.foldl crc32cByte (seed % 2 ^ 32)

/-- Little-endian 32-bit load at byte offset `off` (`le32_to_cpu` of a field
stored at that offset); absent bytes read as 0. -/
def le32_at (bytes : List Nat) (off : Nat) : Nat :=
  bytes.getD off 0 + 2 ^ 8 * bytes.getD (off + 1) 0 +
    2 ^ 16 * bytes.getD (off + 2) 0 + 2 ^ 24 * bytes.getD (off + 3) 0

/-- The duplicated region of `erofs_superblock_csum_verify` (super.c:56): the
bytes of block zero from `EROFS_SUPER_OFFSET` through the end of the block. -/
def sbCsumRegion (sbdata : List Nat) : List Nat :=
  (sbdata.drop EROFS_SUPER_OFFSET).take (EROFS_BLKSIZ - EROFS_SUPER_OFFSET)

/-- The checksum region with the 32-bit `checksum` field (at byte offset 4 of
the superblock record, right after `magic`) zeroed, as done by
`dsb->checksum = 0` at super.c:62. -/
def sbCsumZeroed (sbdata : List Nat) : List Nat :=
  (((((sbCsumRegion sbdata).set 4 0).set 5 0).set 6 0).set 7 0)

/-- `erofs_superblock_csum_verify` (super.c:51): duplicate block zero from
`EROFS_SUPER_OFFSET` to the end of the block, read the stored little-endian
checksum, zero the checksum field in the copy, CRC-32C the copy with seed `~0`
and compare; a mismatch is `-EBADMSG`. -/
def erofs_superblock_csum_verify (sbdata : List Nat) : Int :=
  let expected_crc := le32_at (sbCsumRegion sbdata) 4
  let crc := crc32c (2 ^ 32 - 1) (sbCsumZeroed sbdata)
  if crc ≠ expected_crc then -EBADMSG else 0

/-- `check_layout_compatibility` (super.c:113): accept `feature_incompat`
exactly when it has no bit outside the known mask (`feature &
~EROFS_ALL_FEATURE_INCOMPAT` in 32-bit arithmetic).  The mask value lives in
`erofs_fs.h`; it is kept as the parameter `allFeat`. -/
def check_layout_compatibility (allFeat feature : Nat) : Bool :=
  feature &&& ((2 ^ 32 - 1) ^^^ allFeat) == 0

-- Cache-strategy enumerators (enum declared in internal.h, in declaration
-- order: disabled, readahead, readaround).

/-- `EROFS_ZIP_CACHE_DISABLED`. -/
def EROFS_ZIP_CACHE_DISABLED : Nat := 0

/-- `EROFS_ZIP_CACHE_READAHEAD`. -/
def EROFS_ZIP_CACHE_READAHEAD : Nat := 1

/-- `EROFS_ZIP_CACHE_READAROUND`. -/
def EROFS_ZIP_CACHE_READAROUND : Nat := 2

/-- `erofs_build_cache_strategy` (super.c:315, `CONFIG_EROFS_FS_ZIP` enabled):
recognises exactly `disabled` / `readahead` / `readaround`, storing the
corresponding enumerator into `sbi->cache_strategy`; any other value is
`-EINVAL` and the stored strategy is left untouched.  The result pairs the
errno with the resulting `cache_strategy` field. -/
def erofs_build_cache_strategy (cache_strategy : Nat) (cs : String) : Int × Nat :=
  if cs = "disabled" then (0, EROFS_ZIP_CACHE_DISABLED)
  else if cs = "readahead" then (0, EROFS_ZIP_CACHE_READAHEAD)
  else if cs = "readaround" then (0, EROFS_ZIP_CACHE_READAROUND)
  else (-EINVAL, cache_strategy)

/-- `erofs_build_cache_strategy` (super.c:341, `CONFIG_EROFS_FS_ZIP`
disabled): prints that the option is ignored and always succeeds, changing
nothing. -/
def erofs_build_cache_strategy_nozip (cache_strategy : Nat) (_cs : String) : Int × Nat :=
  (0, cache_strategy)

/-- The page state the managed-cache callbacks act on: whether backing state
(`PagePrivate`, i.e. an attached compressed workgroup) is present. -/
structure CachePage where
  page_private : Bool
deriving DecidableEq

/-- `erofs_managed_cache_releasepage` (super.c:488): a page with no private
backing state is released immediately (`ret = 1`); otherwise the outcome is
that of `erofs_try_to_free_cached_page`, which detaches the backing state
when it succeeds.  The external free attempt is modelled by the schedule
`tryFree`, indexed by the attempt number (its success depends on concurrent
pinners of the cached page). -/
def erofs_managed_cache_releasepage (tryFree : Nat → Bool) (attempt : Nat)
    (page : CachePage) : Bool × CachePage :=
  if page.page_private then
    if tryFree attempt then (true, { page_private := false })
    else (false, page)
  else (true, page)

/-- The `while (!erofs_managed_cache_releasepage(...)) cond_resched();` loop of
super.c:514, unrolled on explicit fuel: `none` means the loop has not returned
within `fuel` attempts (the C loop simply keeps spinning). -/
def invalidateLoop (tryFree : Nat → Bool) : Nat → Nat → CachePage → Option CachePage
  | 0, _, _ => none
  | fuel + 1, attempt, page =>
    match erofs_managed_cache_releasepage tryFree attempt page with
    | (true, page1) => some page1
    | (false, page1) => invalidateLoop tryFree fuel (attempt + 1) page1

/-- `erofs_managed_cache_invalidatepage` (super.c:502): when the invalidated
byte range covers the whole page (`offset == 0 && offset + length ==
PAGE_SIZE`), spin on releasepage until it succeeds; any other range returns
immediately without touching the page. -/
def erofs_managed_cache_invalidatepage (tryFree : Nat → Bool) (fuel : Nat)
    (page : CachePage) (offset length : Nat) : Option CachePage :=
  let stop := length + offset
  if offset = 0 ∧ stop = PAGE_SIZE then invalidateLoop tryFree fuel 0 page
  else some page

/-- The mutable configuration fields of `struct erofs_sb_info` touched by
option parsing: the toggle-flag word `mount_opt`, the zip cache strategy, the
`device=` path list living in `sbi->devs` (idr entries in id order, with its
`extra_devices` count), and the two RAFS v6 path strings. -/
structure erofs_sb_cfg where
  mount_opt : Nat
  cache_strategy : Nat
  dev_paths : List String
  extra_devices : Nat
  bootstrap_path : Option String
  blob_dir_path : Option String
deriving DecidableEq

/-- `EROFS_MOUNT_XATTR_USER` (flag bit from internal.h). -/
def EROFS_MOUNT_XATTR_USER : Nat := 16

/-- `EROFS_MOUNT_POSIX_ACL` (flag bit from internal.h). -/
def EROFS_MOUNT_POSIX_ACL : Nat := 32

/-- `set_opt(sbi, f)`: set a bit of `mount_opt`. -/
def set_opt (cfg : erofs_sb_cfg) (bit : Nat) : erofs_sb_cfg :=
  { cfg with mount_opt := cfg.mount_opt ||| bit }

/-- `clear_opt(sbi, f)`: clear a bit of `mount_opt` (32-bit `& ~bit`). -/
def clear_opt (cfg : erofs_sb_cfg) (bit : Nat) : erofs_sb_cfg :=
  { cfg with mount_opt := cfg.mount_opt &&& ((2 ^ 32 - 1) ^^^ bit) }

/-- `erofs_default_options` (super.c:350) with zip, xattr and acl configured
in: readaround caching, user xattrs and POSIX ACLs enabled. -/
def erofs_default_options (cfg : erofs_sb_cfg) : erofs_sb_cfg :=
  set_opt
    (set_opt { cfg with cache_strategy := EROFS_ZIP_CACHE_READAROUND }
      EROFS_MOUNT_XATTR_USER)
    EROFS_MOUNT_POSIX_ACL

/-- Result of `match_token(p, erofs_tokens, args)` over the table at
super.c:376. -/
inductive ParseToken
  | user_xattr
  | nouser_xattr
  | acl
  | noacl
  | cache_strategy (v : String)
  | device (v : String)
  | bootstrap_path (v : String)
  | blob_dir_path (v : String)
  | unrecognized
deriving DecidableEq

/-- `strsep(&options, ",")` repeated until the string is exhausted: the list
of comma-separated pieces, as character lists.  (`strsep` yields the piece
before each comma and finally the tail, so `n` commas give `n + 1` pieces,
empty ones included.) -/
def strsepSplit : List Char → List Char → List (List Char)
  | [], acc => [acc.reverse]
  | c :: rest, acc =>
    if c = ',' then acc.reverse :: strsepSplit rest []
    else strsepSplit rest (c :: acc)

/-- Whether `pre` is an initial segment of `s`. -/
def listStartsWith : List Char → List Char → Bool
  | [], _ => true
  | _ :: _, [] => false
  | a :: as, b :: bs => a == b && listStartsWith as bs

/-- Token classification of one comma-separated piece: bare keys match
exactly; `key=%s` patterns require a non-empty value (`match_one` rejects an
empty `%s` match, so `device=` alone falls through to `Opt_err`). -/
def matchToken (p : List Char) : ParseToken :=
  if p = "user_xattr".data then .user_xattr
  else if p = "nouser_xattr".data then .nouser_xattr
  else if p = "acl".data then .acl
  else if p = "noacl".data then .noacl
  else if listStartsWith "cache_strategy=".data p && decide (15 < p.length) then
    .cache_strategy (String.mk (p.drop 15))
  else if listStartsWith "device=".data p && decide (7 < p.length) then
    .device (String.mk (p.drop 7))
  else if listStartsWith "bootstrap_path=".data p && decide (15 < p.length) then
    .bootstrap_path (String.mk (p.drop 15))
  else if listStartsWith "blob_dir_path=".data p && decide (14 < p.length) then
    .blob_dir_path (String.mk (p.drop 14))
  else .unrecognized

/-- The `while ((p = strsep(&options, ",")))` body of `erofs_parse_options`
(super.c:398): empty pieces are skipped; toggles set/clear `mount_opt` bits;
`cache_strategy=` delegates to `erofs_build_cache_strategy`; `device=`
appends a path and bumps `extra_devices`; the two RAFS path options replace
the stored string; anything else is `-EINVAL`.  The C function mutates `sbi`
in place and returns an errno, so the model returns the errno together with
the (possibly partially updated) configuration. -/
def parseLoop : erofs_sb_cfg → List (List Char) → Int × erofs_sb_cfg
  | cfg, [] => (0, cfg)
  | cfg, p :: rest =>
    if p = [] then parseLoop cfg rest
    else
      match matchToken p with
      | .user_xattr => parseLoop (set_opt cfg EROFS_MOUNT_XATTR_USER) rest
      | .nouser_xattr => parseLoop (clear_opt cfg EROFS_MOUNT_XATTR_USER) rest
      | .acl => parseLoop (set_opt cfg EROFS_MOUNT_POSIX_ACL) rest
      | .noacl => parseLoop (clear_opt cfg EROFS_MOUNT_POSIX_ACL) rest
      | .cache_strategy v =>
        let r := erofs_build_cache_strategy cfg.cache_strategy v
        if r.1 ≠ 0 then (r.1, cfg)
        else parseLoop { cfg with cache_strategy := r.2 } rest
      | .device v =>
        parseLoop
          { cfg with dev_paths := cfg.dev_paths ++ [v],
                     extra_devices := cfg.extra_devices + 1 } rest
      | .blob_dir_path v => parseLoop { cfg with blob_dir_path := some v } rest
      | .bootstrap_path v => parseLoop { cfg with bootstrap_path := some v } rest
      | .unrecognized => (-EINVAL, cfg)

/-- `erofs_parse_options` (super.c:388): a missing option string succeeds at
once; otherwise the string is split on commas and processed left to right. -/
def erofs_parse_options (cfg : erofs_sb_cfg) (options : Option String) :
    Int × erofs_sb_cfg :=
  match options with
  | none => (0, cfg)
  | some s => parseLoop cfg (strsepSplit s.data [])

/-- `SB_RDONLY` flag bit. -/
def SB_RDONLY : Nat := 1

/-- `erofs_remount` (super.c:877): save `mount_opt`, reparse the option
string; on failure restore only `mount_opt` and return the error; on success
force `SB_RDONLY` into the result flags.  (The `SB_POSIXACL` update of
`sb->s_flags` is not tracked here.) -/
def erofs_remount (cfg : erofs_sb_cfg) (flags : Nat) (data : Option String) :
    Int × erofs_sb_cfg × Nat :=
  let org_mnt_opt := cfg.mount_opt
  let r := erofs_parse_options cfg data
  if r.1 ≠ 0 then (r.1, { r.2 with mount_opt := org_mnt_opt }, flags)
  else (0, r.2, flags ||| SB_RDONLY)

/-- An opened backing-store handle: a block device (`blkdev_get_by_path` on a
`device=` path), a regular file (`filp_open` on a `device=` path when mounting
from a bootstrap), or a file opened relative to the blob directory by the
identifier embedded in a device-table slot (`file_open_root`). -/
inductive DevHandle
  | bdev (path : String)
  | bootfile (path : String)
  | blobfile (id : List Nat)
deriving DecidableEq

/-- One on-disk device-table slot (`struct erofs_deviceslot`): 32-bit block
count, 32-bit mapped block address, and the embedded identifier bytes
(`dis->u.userdata`). -/
structure erofs_deviceslot where
  blocks : Nat
  mapped_blkaddr : Nat
  userdata : List Nat
deriving DecidableEq

/-- A resolved `struct erofs_device_info`: the configured path (empty for
devices synthesized from the blob directory), the opened handle, and the
blocks / mapped address read from the slot. -/
structure erofs_device_info where
  path : String
  handle : DevHandle
  blocks : Nat
  mapped_blkaddr : Nat
deriving DecidableEq

/-- How control left a loop of `erofs_init_devices`: normal completion, the
`break` on a metadata read failure in the first loop (which falls through to
the blob loop and the final `err = 0`), or a jump to `err_out` / a direct
`return` (which skips both). -/
inductive ExitKind
  | normal
  | brk
  | goto_err
deriving DecidableEq

/-- The state threaded through `erofs_init_devices`: the errno, how the last
loop exited, the resolved device list (in id order), `sbi->devs->
extra_devices`, `sbi->total_blocks`, `sbi->device_id_mask`, the index of the
next device-table slot (`pos` in slot units), and instrumentation recording
every metadata slot read and every device-open attempted, in order. -/
structure DevSt where
  err : Int
  exit : ExitKind
  devs : List erofs_device_info
  extra_devices : Nat
  total_blocks : Nat
  device_id_mask : Nat
  pos_idx : Nat
  reads : List Nat
  opens : List DevHandle
deriving DecidableEq

/-- `roundup_pow_of_two` for a positive argument. -/
def roundup_pow_of_two (n : Nat) : Nat := 2 ^ Nat.clog 2 n

/-- Modelled from the spec: the width of a device-table slot's embedded
identifier field.  The field declaration (`dis->u.userdata` in `erofs_fs.h`)
is not among the provided sources; the spec fixes it at 14 bytes. -/
def EROFS_DEVID_LEN : Nat := 14

/-- The blob name actually used to open a slot's file: `strncpy` copies the
fixed-width identifier field into a local buffer one byte longer, and the
final byte of that buffer is unconditionally set to NUL (super.c:218-219),
so the effective C string is the identifier bytes up to the first NUL, or
the whole fixed-width field when it contains none. -/
def blobIdOf (userdata : List Nat) : List Nat :=
  (userdata.take EROFS_DEVID_LEN).takeWhile (fun b => b != 0)

/-- Modelled from the spec: the `EROFS_FEATURE_INCOMPAT_DEVICE_TABLE` bit of
`feature_incompat` (declared in `erofs_fs.h`, not among the provided
sources); the claims only use the predicate below, never the bit's value. -/
def EROFS_FEATURE_INCOMPAT_DEVICE_TABLE : Nat := 8

/-- `erofs_sb_has_device_table(sbi)`: test the device-table feature bit. -/
def erofs_sb_has_device_table (feature_incompat : Nat) : Bool :=
  feature_incompat &&& EROFS_FEATURE_INCOMPAT_DEVICE_TABLE != 0

/-- The first traversal of `erofs_init_devices` (super.c:160-194,
`idr_for_each_entry`): for each device known from the configuration, read its
device-table slot, open the path as a block device — or as a regular file
when mounting from a bootstrap — and record the slot's blocks / mapped
address, accumulating `total_blocks`.  A metadata read failure sets `err` and
`break`s (super.c:167); an open failure jumps to `err_out` (super.c:177). -/
def initLoop1 (bootstrap : Bool) (slots : Nat → Except Int erofs_deviceslot)
    (open_dev : DevHandle → Option Int) :
    List String → DevSt → DevSt
  | [], st => st
  | path :: rest, st =>
    match slots st.pos_idx with
    | .error e =>
      { st with err := e, exit := ExitKind.brk, reads := st.reads ++ [st.pos_idx] }
    | .ok dis =>
      let h := if bootstrap then DevHandle.bootfile path else DevHandle.bdev path
      let st1 := { st with reads := st.reads ++ [st.pos_idx], opens := st.opens ++ [h] }
      match open_dev h with
      | some e => { st1 with err := e, exit := ExitKind.goto_err }
      | none =>
        initLoop1 bootstrap slots open_dev rest
          { st1 with
            devs := st1.devs ++ [{ path := path, handle := h, blocks := dis.blocks,
                                   mapped_blkaddr := dis.mapped_blkaddr }],
            total_blocks := st1.total_blocks + dis.blocks,
            pos_idx := st1.pos_idx + 1 }

/-- The blob loop of `erofs_init_devices` (super.c:196-234): while the device
count is below the on-disk count (the fuel argument is that difference, which
the C condition re-tests as `extra_devices` is incremented), read the next
slot, open the file named by the slot's embedded identifier relative to the
blob directory, and append a synthesized device.  A metadata read failure
returns its error directly (super.c:204); an open failure jumps to `err_out`
(super.c:226). -/
def initLoop2 (slots : Nat → Except Int erofs_deviceslot)
    (open_dev : DevHandle → Option Int) :
    Nat → DevSt → DevSt
  | 0, st => st
  | n + 1, st =>
    match slots st.pos_idx with
    | .error e =>
      { st with err := e, exit := ExitKind.goto_err, reads := st.reads ++ [st.pos_idx] }
    | .ok dis =>
      let h := DevHandle.blobfile (blobIdOf dis.userdata)
      let st1 := { st with reads := st.reads ++ [st.pos_idx], opens := st.opens ++ [h] }
      match open_dev h with
      | some e => { st1 with err := e, exit := ExitKind.goto_err }
      | none =>
        initLoop2 slots open_dev n
          { st1 with
            devs := st1.devs ++ [{ path := "", handle := h, blocks := dis.blocks,
                                   mapped_blkaddr := dis.mapped_blkaddr }],
            extra_devices := st1.extra_devices + 1,
            total_blocks := st1.total_blocks + dis.blocks,
            pos_idx := st1.pos_idx + 1 }

/-- `erofs_init_devices` (super.c:130): start from `total_blocks =
primarydevice_blocks`; take the on-disk extra-device count (0 when the
device-table feature is absent); reject a mismatch with the configured count
with `-EINVAL` unless a blob directory is configured; succeed at once when
the on-disk count is zero; otherwise compute `device_id_mask`, run the two
loops, and — unless control jumped to `err_out` or returned directly — end
with the unconditional `err = 0` of super.c:235.  Note that this final
assignment also discards the errno a first-loop `break` left behind. -/
def erofs_init_devices (primarydevice_blocks : Nat) (feature_incompat : Nat)
    (cfg_paths : List String) (blob_dir_path : Option String) (bootstrap : Bool)
    (dsb_extra_devices : Nat)
    (slots : Nat → Except Int erofs_deviceslot)
    (open_dev : DevHandle → Option Int) : DevSt :=
  let st0 : DevSt :=
    { err := 0, exit := ExitKind.normal, devs := [],
      extra_devices := cfg_paths.length, total_blocks := primarydevice_blocks,
      device_id_mask := 0, pos_idx := 0, reads := [], opens := [] }
  let ondisk_extradevs :=
    if erofs_sb_has_device_table feature_incompat then dsb_extra_devices else 0
  if ondisk_extradevs ≠ cfg_paths.length ∧ blob_dir_path = none then
    { st0 with err := -EINVAL }
  else if ondisk_extradevs = 0 then st0
  else
    let st1 := { st0 with
      device_id_mask := roundup_pow_of_two (ondisk_extradevs + 1) - 1 }
    let st2 := initLoop1 bootstrap slots open_dev cfg_paths st1
    if st2.exit = ExitKind.goto_err then st2
    else
      let st3 := initLoop2 slots open_dev (ondisk_extradevs - st2.extra_devices) st2
      if st3.exit = ExitKind.goto_err then st3
      else { st3 with err := 0, exit := ExitKind.normal }

/-- The decoded field view of the on-disk `struct erofs_super_block` (all
multi-byte fields already little-endian-normalized, as the `le*_to_cpu`
accessors in the C code do). -/
structure erofs_super_block where
  magic : Nat
  checksum : Nat
  feature_compat : Nat
  blkszbits : Nat
  root_nid : Nat
  inos : Nat
  build_time : Nat
  build_time_nsec : Nat
  blocks : Nat
  meta_blkaddr : Nat
  xattr_blkaddr : Nat
  volume_name : List Nat
  feature_incompat : Nat
  extra_devices : Nat
  devt_slotoff : Nat
deriving DecidableEq

/-- Modelled from the spec: the `EROFS_FEATURE_COMPAT_SB_CHKSUM` bit of
`feature_compat` (declared in `erofs_fs.h`, not among the provided sources):
the checksum-present bit. -/
def EROFS_FEATURE_COMPAT_SB_CHKSUM : Nat := 1

/-- `erofs_sb_has_sb_chksum(sbi)`: test the checksum-present bit. -/
def erofs_sb_has_sb_chksum (feature_compat : Nat) : Bool :=
  feature_compat &&& EROFS_FEATURE_COMPAT_SB_CHKSUM != 0

/-- Width of the fixed `volume_name` field of the superblock record. -/
def EROFS_VOLUME_NAME_LEN : Nat := 16

/-- Outcome of `erofs_read_superblock`: the errno, whether the checksum
verification was performed, and the device-resolution state when control
reached `erofs_init_devices`. -/
structure ReadSbResult where
  err : Int
  csum_verified : Bool
  dev : Option DevSt
deriving DecidableEq

/-- `erofs_read_superblock` (super.c:242): check the magic; if the
checksum-present `feature_compat` bit is set, verify the superblock checksum
and abort on mismatch; check `blkszbits` against the single supported value;
run the incompatible-feature gate; copy the scalar fields (not tracked
beyond what later steps read); `strscpy` the volume name, rejecting a name
with no NUL terminator in its fixed-width field as `-EFSCORRUPTED`; finally
resolve the device table.  `dsb` is the decoded field view of the record and
`data` the raw bytes of block zero — the C code reads both through the same
mapped buffer. -/
def erofs_read_superblock (allFeat : Nat) (dsb : erofs_super_block)
    (data : List Nat) (cfg_paths : List String) (blob_dir_path : Option String)
    (bootstrap : Bool) (slots : Nat → Except Int erofs_deviceslot)
    (open_dev : DevHandle → Option Int) : ReadSbResult :=
  if dsb.magic ≠ EROFS_SUPER_MAGIC_V1 then
    { err := -EINVAL, csum_verified := false, dev := none }
  else
    let verified := erofs_sb_has_sb_chksum dsb.feature_compat
    let ret := erofs_superblock_csum_verify data
    if verified && (ret != 0) then
      { err := ret, csum_verified := true, dev := none }
    else if dsb.blkszbits ≠ LOG_BLOCK_SIZE then
      { err := -EINVAL, csum_verified := verified, dev := none }
    else if ¬ check_layout_compatibility allFeat dsb.feature_incompat then
      { err := -EINVAL, csum_verified := verified, dev := none }
    else if (dsb.volume_name.take EROFS_VOLUME_NAME_LEN).all (fun b => b != 0) then
      { err := -EFSCORRUPTED, csum_verified := verified, dev := none }
    else
      let d := erofs_init_devices dsb.blocks dsb.feature_incompat cfg_paths
        blob_dir_path bootstrap dsb.extra_devices slots open_dev
      { err := d.err, csum_verified := verified, dev := some d }

/-- The sequence of blob-file opens expected from slots `i, i+1, …, i+n-1`:
each named by its slot's embedded identifier. -/
def blobOpenSeq (f : Nat → erofs_deviceslot) (i : Nat) : Nat → List DevHandle
  | 0 => []
  | n + 1 => DevHandle.blobfile (blobIdOf (f i).userdata) :: blobOpenSeq f (i + 1) n

/-! Helper lemmas. -/

/-- A run of the blob loop in which every slot read and every open succeeds
completes normally, adds one device per missing slot, and opens exactly the
files named by the embedded identifiers of the slots, in slot order. -/
lemma initLoop2_all_ok (f : Nat → erofs_deviceslot) (od : DevHandle → Option Int)
    (hod : ∀ h, od h = none) :
    ∀ (n : Nat) (st : DevSt), st.exit = ExitKind.normal →
      (initLoop2 (fun j => Except.ok (f j)) od n st).exit = ExitKind.normal ∧
      (initLoop2 (fun j => Except.ok (f j)) od n st).err = st.err ∧
      (initLoop2 (fun j => Except.ok (f j)) od n st).extra_devices =
        st.extra_devices + n ∧
      (initLoop2 (fun j => Except.ok (f j)) od n st).opens =
        st.opens ++ blobOpenSeq f st.pos_idx n := by
  intro n
  induction n with
  | zero =>
    intro st hst
    simp [initLoop2, blobOpenSeq, hst]
  | succ m ih =>
    intro st hst
    rw [initLoop2]
    simp only [hod]
    obtain ⟨h1, h2, h3, h4⟩ := ih
      { st with
        reads := st.reads ++ [st.pos_idx],
        opens := st.opens ++ [DevHandle.blobfile (blobIdOf (f st.pos_idx).userdata)],
        devs := (st.devs ++
          [{ path := "", handle := DevHandle.blobfile (blobIdOf (f st.pos_idx).userdata),
             blocks := (f st.pos_idx).blocks,
             mapped_blkaddr := (f st.pos_idx).mapped_blkaddr }]),
        extra_devices := st.extra_devices + 1,
        total_blocks := st.total_blocks + (f st.pos_idx).blocks,
        pos_idx := st.pos_idx + 1 } hst
    refine ⟨h1, h2, ?_, ?_⟩
    · rw [h3]
      dsimp only
      omega
    · rw [h4]
      simp [blobOpenSeq, List.append_assoc]

/-- Setting a bit with `|||` makes it survive a mask with that bit. -/
lemma lor_one_and_one (flags : Nat) : (flags ||| 1) &&& 1 = 1 := by
  apply Nat.eq_of_testBit_eq
  intro i
  cases i with
  | zero => simp [Nat.testBit_land, Nat.testBit_lor]
  | succ n => simp [Nat.testBit_land, Nat.testBit_succ]

/-- A nonzero natural number has a set bit. -/
lemma exists_testBit_of_ne_zero {x : Nat} (h : x ≠ 0) : ∃ i, x.testBit i = true := by
  by_contra hc
  push_neg at hc
  exact h (Nat.zero_of_testBit_eq_false (fun i => by simpa using hc i))

/-- Whatever page the release-spin loop of `invalidatepage` returns has no
private backing state left: the loop only returns on a successful release. -/
lemma invalidateLoop_private_false (tryFree : Nat → Bool) :
    ∀ fuel attempt page p1,
      invalidateLoop tryFree fuel attempt page = some p1 → p1.page_private = false := by
  intro fuel
  induction fuel with
  | zero =>
    intro attempt page p1 h
    simp [invalidateLoop] at h
  | succ n ih =>
    intro attempt page p1 h
    rw [invalidateLoop] at h
    by_cases hp : page.page_private
    · by_cases ht : tryFree attempt
      · simp [erofs_managed_cache_releasepage, hp, ht] at h
        simp [← h]
      · simp [erofs_managed_cache_releasepage, hp, ht] at h
        exact ih (attempt + 1) page p1 h
    · simp [erofs_managed_cache_releasepage, hp] at h
      rw [← h]
      simp [hp]

/-! Theorems about the claims. -/

/-- Claim C1, counterexample: remounting with the option string
`cache_strategy=disabled,bogus` fails (`-EINVAL` on the unknown token), yet
the previously recorded cache strategy (`readaround` from the defaults) is
left at `disabled`, the value the failed parse already stored — the prior
configuration is not restored verbatim. -/
theorem c1_counterexample :
    (erofs_remount (erofs_default_options ⟨0, 0, [], 0, none, none⟩) 0
        (some "cache_strategy=disabled,bogus")).1 ≠ 0 ∧
    (erofs_remount (erofs_default_options ⟨0, 0, [], 0, none, none⟩) 0
        (some "cache_strategy=disabled,bogus")).2.1.cache_strategy =
      EROFS_ZIP_CACHE_DISABLED ∧
    (erofs_default_options ⟨0, 0, [], 0, none, none⟩).cache_strategy =
      EROFS_ZIP_CACHE_READAROUND := by
  refine ⟨by decide, by decide, by decide⟩

/-- Claim C1, amended: when remount's option parse fails, only the
toggle-flag word `mount_opt` is restored to its prior value (the other
configuration elements may keep whatever the partial parse stored). -/
theorem c1_amended_remount_restores_toggle_flags (cfg : erofs_sb_cfg)
    (flags : Nat) (data : Option String)
    (h : (erofs_remount cfg flags data).1 ≠ 0) :
    (erofs_remount cfg flags data).2.1.mount_opt = cfg.mount_opt := by
  by_cases he : (erofs_parse_options cfg data).1 ≠ 0
  · simp [erofs_remount, he]
  · exfalso
    apply h
    simp [erofs_remount, he]

/-- Claim C1, witness for the amended theorem at a concrete failing remount. -/
theorem c1_amended_witness :
    (erofs_remount (erofs_default_options ⟨0, 0, [], 0, none, none⟩) 0
        (some "bogus")).2.1.mount_opt =
      (erofs_default_options ⟨0, 0, [], 0, none, none⟩).mount_opt :=
  c1_amended_remount_restores_toggle_flags _ _ _ (by decide)

/-- Claim C2, counterexample: a superblock declaring zero extra devices does
not always resolve successfully — with one `device=` path configured and no
blob directory, `erofs_init_devices` rejects the count mismatch with
`-EINVAL`. -/
theorem c2_counterexample :
    (erofs_init_devices 100 8 ["/dev/extra"] none false 0
        (fun _ => Except.error (- EIO)) (fun _ => none)).err = -EINVAL := by
  decide

/-- Claim C2, amended: if the effective on-disk extra-device count is zero
(no device-table feature, or `extra_devices = 0`) and the configuration also
names no extra device — or blob-directory mode is active — then resolution
returns the initial state unchanged: success, `total_blocks` equal to the
primary device's block count, and no slot read or device open at all. -/
theorem c2_amended_zero_extra_devices (primary fi : Nat)
    (cfg_paths : List String) (blob : Option String) (boot : Bool) (nd : Nat)
    (slots : Nat → Except Int erofs_deviceslot) (od : DevHandle → Option Int)
    (h0 : erofs_sb_has_device_table fi = false ∨ nd = 0)
    (hcfg : cfg_paths = [] ∨ blob ≠ none) :
    erofs_init_devices primary fi cfg_paths blob boot nd slots od =
      { err := 0, exit := ExitKind.normal, devs := [],
        extra_devices := cfg_paths.length, total_blocks := primary,
        device_id_mask := 0, pos_idx := 0, reads := [], opens := [] } := by
  have hondisk : (if erofs_sb_has_device_table fi then nd else 0) = 0 := by
    rcases h0 with h | h <;> simp [h]
  rcases hcfg with h | h
  · simp [erofs_init_devices, hondisk, h]
  · simp [erofs_init_devices, hondisk, h]

/-- Claim C2, witness for the amended theorem: no device-table feature, no
configured devices. -/
theorem c2_amended_witness :
    erofs_init_devices 100 0 [] none false 5
        (fun _ => Except.error (- EIO)) (fun _ => none) =
      { err := 0, exit := ExitKind.normal, devs := [], extra_devices := 0,
        total_blocks := 100, device_id_mask := 0, pos_idx := 0,
        reads := [], opens := [] } :=
  c2_amended_zero_extra_devices 100 0 [] none false 5
    (fun _ => Except.error (- EIO)) (fun _ => none) (by decide) (Or.inl rfl)

/-- Claim C7: with the compressed-cache feature compiled in,
`cache_strategy=` accepts exactly `disabled` / `readahead` / `readaround`,
recording the corresponding strategy, and rejects every other value with
`-EINVAL` (leaving the recorded strategy unchanged); with the feature
compiled out, any value is accepted and has no effect. -/
theorem c7_cache_strategy_parse (cache : Nat) (cs : String) :
    (cs ≠ "disabled" → cs ≠ "readahead" → cs ≠ "readaround" →
      erofs_build_cache_strategy cache cs = (-EINVAL, cache)) ∧
    erofs_build_cache_strategy cache "disabled" = (0, EROFS_ZIP_CACHE_DISABLED) ∧
    erofs_build_cache_strategy cache "readahead" = (0, EROFS_ZIP_CACHE_READAHEAD) ∧
    erofs_build_cache_strategy cache "readaround" = (0, EROFS_ZIP_CACHE_READAROUND) ∧
    erofs_build_cache_strategy_nozip cache cs = (0, cache) := by
  refine ⟨fun h1 h2 h3 => ?_, ?_, ?_, ?_, rfl⟩
  · simp [erofs_build_cache_strategy, h1, h2, h3]
  · rfl
  · rfl
  · rfl

/-- Claim C7, witness: `cache_strategy=bogus` is rejected at strategy 0. -/
theorem c7_witness :
    erofs_build_cache_strategy 0 "bogus" = (-EINVAL, 0) :=
  (c7_cache_strategy_parse 0 "bogus").1 (by decide) (by decide) (by decide)

/-- Claim C8: a fully covering invalidation (`offset = 0`,
`offset + length = PAGE_SIZE`) spins on releasepage until it succeeds, so
whenever the call returns, the page carries no private backing state any more
and every further releasepage on it reports it releasable. -/
theorem c8_full_invalidate_releasable (tryFree : Nat → Bool) (fuel : Nat)
    (page p1 : CachePage) (offset length : Nat)
    (hoff : offset = 0) (hlen : offset + length = PAGE_SIZE)
    (h : erofs_managed_cache_invalidatepage tryFree fuel page offset length = some p1) :
    p1.page_private = false ∧
    ∀ attempt, (erofs_managed_cache_releasepage tryFree attempt p1).1 = true := by
  subst hoff
  have hcov : length + 0 = PAGE_SIZE := by omega
  rw [erofs_managed_cache_invalidatepage] at h
  simp only [hcov] at h
  have hp : p1.page_private = false := by
    apply invalidateLoop_private_false tryFree fuel 0 page p1
    simpa using h
  refine ⟨hp, fun attempt => ?_⟩
  simp [erofs_managed_cache_releasepage, hp]

/-- Claim C8, witness: a whole-page invalidation whose first release attempt
succeeds leaves the page releasable. -/
theorem c8_witness :
    CachePage.page_private ⟨false⟩ = false ∧
    ∀ attempt,
      (erofs_managed_cache_releasepage (fun _ => true) attempt ⟨false⟩).1 = true :=
  c8_full_invalidate_releasable (fun _ => true) 1 ⟨true⟩ ⟨false⟩ 0 4096
    rfl (by decide) (by decide)

/-- Claim C9: a remount that succeeds always carries `SB_RDONLY` in the
resulting flags, and a remount that fails leaves the flags word untouched
(the filesystem stays read-only either way: no remount can clear the bit). -/
theorem c9_remount_forces_rdonly (cfg : erofs_sb_cfg) (flags : Nat)
    (data : Option String) :
    ((erofs_remount cfg flags data).1 = 0 →
      (erofs_remount cfg flags data).2.2 &&& SB_RDONLY = SB_RDONLY) ∧
    ((erofs_remount cfg flags data).1 ≠ 0 →
      (erofs_remount cfg flags data).2.2 = flags) := by
  by_cases he : (erofs_parse_options cfg data).1 ≠ 0
  · refine ⟨fun h0 => ?_, fun _ => ?_⟩
    · exfalso
      apply he
      revert h0
      simp [erofs_remount, he]
    · simp [erofs_remount, he]
  · refine ⟨fun _ => ?_, fun hne => ?_⟩
    · simp [erofs_remount, he, SB_RDONLY, lor_one_and_one]
    · exfalso
      apply hne
      simp [erofs_remount, he]

/-- Claim C9, witness: a concrete successful remount yields read-only flags. -/
theorem c9_witness :
    (erofs_remount (erofs_default_options ⟨0, 0, [], 0, none, none⟩) 0
        (some "acl")).2.2 &&& SB_RDONLY = SB_RDONLY :=
  (c9_remount_forces_rdonly (erofs_default_options ⟨0, 0, [], 0, none, none⟩) 0
    (some "acl")).1 (by decide)

/-- Claim C5: when the on-disk extra-device count differs from the count the
configuration's `device=` entries produced, resolution fails with `-EINVAL`
before any slot is read or any device is opened — unless a blob directory is
configured, in which case (here: with no configured devices, every slot
readable and every open succeeding) resolution succeeds, brings the device
count up to the on-disk count, and opens exactly the files named by the
slots' embedded identifiers, in slot order. -/
theorem c5_device_count_mismatch (primary fi : Nat) (cfg_paths : List String)
    (blob : Option String) (boot : Bool) (nd : Nat)
    (slots : Nat → Except Int erofs_deviceslot) (od : DevHandle → Option Int)
    (hdt : erofs_sb_has_device_table fi = true) :
    (blob = none → nd ≠ cfg_paths.length →
      (erofs_init_devices primary fi cfg_paths blob boot nd slots od).err = -EINVAL ∧
      (erofs_init_devices primary fi cfg_paths blob boot nd slots od).reads = [] ∧
      (erofs_init_devices primary fi cfg_paths blob boot nd slots od).opens = []) ∧
    (∀ (d : String) (f : Nat → erofs_deviceslot),
      blob = some d → cfg_paths = [] →
      slots = (fun j => Except.ok (f j)) → (∀ h, od h = none) →
      (erofs_init_devices primary fi cfg_paths blob boot nd slots od).err = 0 ∧
      (erofs_init_devices primary fi cfg_paths blob boot nd slots od).extra_devices = nd ∧
      (erofs_init_devices primary fi cfg_paths blob boot nd slots od).opens =
        blobOpenSeq f 0 nd) := by
  constructor
  · intro hb hne
    subst hb
    simp [erofs_init_devices, hdt, hne]
  · intro d f hb hcfg hs hod
    subst hb
    subst hcfg
    subst hs
    by_cases hnd : nd = 0
    · subst hnd
      simp [erofs_init_devices, hdt, blobOpenSeq]
    · obtain ⟨he, herr, hextra, hopens⟩ := initLoop2_all_ok f od hod nd
        { err := 0, exit := ExitKind.normal, devs := [], extra_devices := 0,
          total_blocks := primary, device_id_mask := roundup_pow_of_two (nd + 1) - 1,
          pos_idx := 0, reads := [], opens := [] } rfl
      simp only [erofs_init_devices, hdt, initLoop1, hnd, Nat.sub_zero, List.length_nil]
      simp [he, hextra, hopens, hnd]

/-- Claim C5, witness: two configured devices against one on-disk device,
no blob directory — rejected before any read or open. -/
theorem c5_witness :
    (erofs_init_devices 100 8 ["/a", "/b"] none false 1
        (fun _ => Except.error (- EIO)) (fun _ => none)).err = -EINVAL ∧
    (erofs_init_devices 100 8 ["/a", "/b"] none false 1
        (fun _ => Except.error (- EIO)) (fun _ => none)).reads = [] ∧
    (erofs_init_devices 100 8 ["/a", "/b"] none false 1
        (fun _ => Except.error (- EIO)) (fun _ => none)).opens = [] :=
  (c5_device_count_mismatch 100 8 ["/a", "/b"] none false 1
      (fun _ => Except.error (- EIO)) (fun _ => none) (by decide)).1 rfl (by decide)

/-- The identifier bytes of a slot whose fixed-width field is fully occupied
with no NUL are used whole: the defensive NUL lands only in the spare final
byte of the copy buffer. -/
lemma blobIdOf_full (u : List Nat) (hlen : u.length = EROFS_DEVID_LEN)
    (hnz : ∀ b ∈ u, b ≠ 0) : blobIdOf u = u := by
  unfold blobIdOf
  rw [← hlen, List.take_length, List.takeWhile_eq_self_iff]
  intro x hx
  simpa using hnz x hx

/-- Claim C10: in blob-directory mode, a slot whose embedded identifier
occupies the full fixed-width field with no NUL terminator is not rejected:
the open is attempted with exactly the full-width name; if that open
succeeds the slot resolves (device appended with the slot's blocks and
mapped address, `total_blocks` accumulated), and resolution fails for the
slot only when that open fails, with the open's error. -/
theorem c10_full_width_blob_id (primary fi : Nat) (d : String) (boot : Bool)
    (s : erofs_deviceslot) (od : DevHandle → Option Int)
    (hdt : erofs_sb_has_device_table fi = true)
    (hlen : s.userdata.length = EROFS_DEVID_LEN)
    (hnz : ∀ b ∈ s.userdata, b ≠ 0) :
    (erofs_init_devices primary fi [] (some d) boot 1 (fun _ => Except.ok s) od).opens =
      [DevHandle.blobfile s.userdata] ∧
    (od (DevHandle.blobfile s.userdata) = none →
      (erofs_init_devices primary fi [] (some d) boot 1 (fun _ => Except.ok s) od).err = 0 ∧
      (erofs_init_devices primary fi [] (some d) boot 1 (fun _ => Except.ok s) od).devs =
        [{ path := "", handle := DevHandle.blobfile s.userdata,
           blocks := s.blocks, mapped_blkaddr := s.mapped_blkaddr }] ∧
      (erofs_init_devices primary fi [] (some d) boot 1 (fun _ => Except.ok s) od).total_blocks =
        primary + s.blocks) ∧
    (∀ e, od (DevHandle.blobfile s.userdata) = some e →
      (erofs_init_devices primary fi [] (some d) boot 1 (fun _ => Except.ok s) od).err = e) := by
  have hid : blobIdOf s.userdata = s.userdata := blobIdOf_full _ hlen hnz
  refine ⟨?_, fun hn => ?_, fun e he => ?_⟩
  · rcases hodc : od (DevHandle.blobfile s.userdata) with _ | e
    · simp [erofs_init_devices, hdt, initLoop1, initLoop2, hid, hodc]
    · simp [erofs_init_devices, hdt, initLoop1, initLoop2, hid, hodc]
  · simp [erofs_init_devices, hdt, initLoop1, initLoop2, hid, hn]
  · simp [erofs_init_devices, hdt, initLoop1, initLoop2, hid, he]

/-- Claim C10, witness: a 14-byte NUL-free identifier is opened whole. -/
theorem c10_witness :
    (erofs_init_devices 100 8 [] (some "/blobs") false 1
        (fun _ => Except.ok ⟨7, 9, [1, 2, 3, 4, 5, 6, 7, 8, 9, 10, 11, 12, 13, 14]⟩)
        (fun _ => none)).opens =
      [DevHandle.blobfile [1, 2, 3, 4, 5, 6, 7, 8, 9, 10, 11, 12, 13, 14]] :=
  (c10_full_width_blob_id 100 8 "/blobs" false
      ⟨7, 9, [1, 2, 3, 4, 5, 6, 7, 8, 9, 10, 11, 12, 13, 14]⟩ (fun _ => none)
      (by decide) (by decide) (by decide)).1

/-- Claim C3: the layout gate fails exactly when `feature_incompat` (a
32-bit value) has a set bit outside the known mask, passes whenever every set
bit is known (in particular for `feature_incompat = 0`), and
`erofs_read_superblock` turns a failing gate into `-EINVAL`, never ignoring
an unknown mandatory feature. -/
theorem c3_unknown_incompat_feature_rejected (allFeat feature : Nat)
    (hf : feature < 2 ^ 32) :
    (check_layout_compatibility allFeat feature = false ↔
      ∃ i, feature.testBit i = true ∧ allFeat.testBit i = false) ∧
    check_layout_compatibility allFeat 0 = true ∧
    (∀ (dsb : erofs_super_block) (data : List Nat) (cfg_paths : List String)
        (blob : Option String) (boot : Bool)
        (slots : Nat → Except Int erofs_deviceslot) (od : DevHandle → Option Int),
      dsb.magic = EROFS_SUPER_MAGIC_V1 →
      erofs_sb_has_sb_chksum dsb.feature_compat = false →
      dsb.blkszbits = LOG_BLOCK_SIZE →
      check_layout_compatibility allFeat dsb.feature_incompat = false →
      (erofs_read_superblock allFeat dsb data cfg_paths blob boot slots od).err = -EINVAL ∧
      (erofs_read_superblock allFeat dsb data cfg_paths blob boot slots od).dev = none) := by
  refine ⟨⟨fun h => ?_, fun h => ?_⟩, ?_, ?_⟩
  · have h0 : feature &&& ((2 ^ 32 - 1) ^^^ allFeat) ≠ 0 := by
      intro hz
      rw [check_layout_compatibility, hz] at h
      simp at h
    obtain ⟨i, hi⟩ := exists_testBit_of_ne_zero h0
    rw [Nat.testBit_land] at hi
    have hfi : feature.testBit i = true := by
      cases hfc : feature.testBit i
      · rw [hfc] at hi
        simp at hi
      · rfl
    have hmi : ((2 ^ 32 - 1) ^^^ allFeat).testBit i = true := by
      cases hmc : ((2 ^ 32 - 1) ^^^ allFeat).testBit i
      · rw [hmc] at hi
        simp at hi
      · rfl
    have hilt : i < 32 := by
      by_contra hge
      push_neg at hge
      have hfb : feature.testBit i = false :=
        Nat.testBit_eq_false_of_lt
          (lt_of_lt_of_le hf (Nat.pow_le_pow_right (by norm_num) hge))
      rw [hfb] at hfi
      cases hfi
    have hmask : ((2 ^ 32 - 1) : Nat).testBit i = true := by
      rw [Nat.testBit_two_pow_sub_one]
      simpa using hilt
    rw [Nat.testBit_xor, hmask] at hmi
    refine ⟨i, hfi, ?_⟩
    cases hac : allFeat.testBit i
    · rfl
    · rw [hac] at hmi
      simp at hmi
  · obtain ⟨i, hfi, hai⟩ := h
    have hilt : i < 32 := by
      by_contra hge
      push_neg at hge
      have hfb : feature.testBit i = false :=
        Nat.testBit_eq_false_of_lt
          (lt_of_lt_of_le hf (Nat.pow_le_pow_right (by norm_num) hge))
      rw [hfb] at hfi
      cases hfi
    have hbit : (feature &&& ((2 ^ 32 - 1) ^^^ allFeat)).testBit i = true := by
      rw [Nat.testBit_land, hfi, Nat.testBit_xor, hai, Nat.testBit_two_pow_sub_one]
      simpa using hilt
    have hne : feature &&& ((2 ^ 32 - 1) ^^^ allFeat) ≠ 0 := by
      intro hz
      rw [hz, Nat.zero_testBit] at hbit
      cases hbit
    have hne2 : feature &&& ((4294967295 : Nat) ^^^ allFeat) ≠ 0 := by
      simpa using hne
    simp [check_layout_compatibility, hne2]
  · simp [check_layout_compatibility]
  · intro dsb data cfg_paths blob boot slots od hm hcs hbs hcl
    constructor
    · simp [erofs_read_superblock, hm, hcs, hbs, hcl]
    · simp [erofs_read_superblock, hm, hcs, hbs, hcl]

/-- Claim C4: once the magic matches, the checksum is verified if and only
if the checksum-present bit of `feature_compat` is set; verification
CRC-32Cs the bytes from `EROFS_SUPER_OFFSET` through the end of block zero
with the checksum field zeroed and succeeds exactly when the result equals
the stored little-endian value; a mismatch aborts decoding with `-EBADMSG`;
and with the bit clear the outcome is independent of the block bytes (no
verification is performed). -/
theorem c4_checksum_gate (allFeat : Nat) (dsb : erofs_super_block)
    (data : List Nat) (cfg_paths : List String) (blob : Option String)
    (boot : Bool) (slots : Nat → Except Int erofs_deviceslot)
    (od : DevHandle → Option Int)
    (hm : dsb.magic = EROFS_SUPER_MAGIC_V1) :
    ((erofs_read_superblock allFeat dsb data cfg_paths blob boot slots od).csum_verified =
      erofs_sb_has_sb_chksum dsb.feature_compat) ∧
    (erofs_sb_has_sb_chksum dsb.feature_compat = true →
      crc32c (2 ^ 32 - 1) (sbCsumZeroed data) ≠ le32_at (sbCsumRegion data) 4 →
      (erofs_read_superblock allFeat dsb data cfg_paths blob boot slots od).err = -EBADMSG ∧
      (erofs_read_superblock allFeat dsb data cfg_paths blob boot slots od).dev = none) ∧
    (erofs_superblock_csum_verify data = 0 ↔
      crc32c (2 ^ 32 - 1) (sbCsumZeroed data) = le32_at (sbCsumRegion data) 4) ∧
    (erofs_sb_has_sb_chksum dsb.feature_compat = false →
      ∀ data2, erofs_read_superblock allFeat dsb data cfg_paths blob boot slots od =
        erofs_read_superblock allFeat dsb data2 cfg_paths blob boot slots od) := by
  refine ⟨?_, fun hb hcrc => ?_, ?_, fun hb data2 => ?_⟩
  · simp only [erofs_read_superblock]
    rw [if_neg (by simp [hm])]
    split_ifs <;> simp_all
  · have hv : erofs_superblock_csum_verify data = -EBADMSG := by
      unfold erofs_superblock_csum_verify
      dsimp only
      rw [if_pos hcrc]
    constructor
    · simp [erofs_read_superblock, hm, hb, hv, EBADMSG]
    · simp [erofs_read_superblock, hm, hb, hv, EBADMSG]
  · by_cases hc : crc32c (2 ^ 32 - 1) (sbCsumZeroed data) = le32_at (sbCsumRegion data) 4
    · refine iff_of_true ?_ hc
      unfold erofs_superblock_csum_verify
      dsimp only
      rw [if_neg (fun hne => hne hc)]
    · refine iff_of_false ?_ hc
      unfold erofs_superblock_csum_verify
      dsimp only
      rw [if_pos hc]
      simp [EBADMSG]
  · simp [erofs_read_superblock, hm, hb]


/-- Claim C3, witness: with known mask 1, `feature_incompat = 2` is refused
with `-EINVAL` by superblock decoding. -/
theorem c3_witness :
    (erofs_read_superblock 1 ⟨0xE0F5E1E2, 0, 0, 12, 0, 0, 0, 0, 100, 0, 0, [0], 2, 0, 0⟩
        [] [] none false (fun _ => Except.error (- EIO)) (fun _ => none)).err = -EINVAL ∧
    (erofs_read_superblock 1 ⟨0xE0F5E1E2, 0, 0, 12, 0, 0, 0, 0, 100, 0, 0, [0], 2, 0, 0⟩
        [] [] none false (fun _ => Except.error (- EIO)) (fun _ => none)).dev = none :=
  (c3_unknown_incompat_feature_rejected 1 2 (by norm_num)).2.2
    ⟨0xE0F5E1E2, 0, 0, 12, 0, 0, 0, 0, 100, 0, 0, [0], 2, 0, 0⟩ [] [] none false
    (fun _ => Except.error (- EIO)) (fun _ => none) rfl (by decide) rfl (by decide)

/-- Claim C4, witness: checksum-present bit set over an all-absent block
(stored checksum 0, computed CRC nonzero) makes decoding fail with
`-EBADMSG`. -/
theorem c4_witness :
    (erofs_read_superblock 1 ⟨0xE0F5E1E2, 0, 1, 12, 0, 0, 0, 0, 100, 0, 0, [0], 0, 0, 0⟩
        [] [] none false (fun _ => Except.error (- EIO)) (fun _ => none)).err = -EBADMSG ∧
    (erofs_read_superblock 1 ⟨0xE0F5E1E2, 0, 1, 12, 0, 0, 0, 0, 100, 0, 0, [0], 0, 0, 0⟩
        [] [] none false (fun _ => Except.error (- EIO)) (fun _ => none)).dev = none :=
  (c4_checksum_gate 1 ⟨0xE0F5E1E2, 0, 1, 12, 0, 0, 0, 0, 100, 0, 0, [0], 0, 0, 0⟩
      [] [] none false (fun _ => Except.error (- EIO)) (fun _ => none) rfl).2.1
    (by decide) (by decide)

/-- Claim C6: the error-discarding fall-through of `erofs_init_devices`.
With one on-disk extra device matching one configured `device=` path, a
failing metadata read of slot 0 sets `err` and `break`s out of the first
loop (super.c:167); the blob loop has nothing to do, so control falls into
the unconditional `err = 0` of super.c:235 and resolution reports success —
with no device resolved, nothing opened, and `total_blocks` still at the
primary count, contradicting both the all-or-nothing abort the spec requires
and the `break`'s own intent of propagating the error. -/
theorem c6_slot_read_failure_swallowed :
    (erofs_init_devices 100 8 ["/dev/x"] none false 1
        (fun _ => Except.error (- EIO)) (fun _ => none)).err = 0 ∧
    (erofs_init_devices 100 8 ["/dev/x"] none false 1
        (fun _ => Except.error (- EIO)) (fun _ => none)).reads = [0] ∧
    (erofs_init_devices 100 8 ["/dev/x"] none false 1
        (fun _ => Except.error (- EIO)) (fun _ => none)).devs = [] ∧
    (erofs_init_devices 100 8 ["/dev/x"] none false 1
        (fun _ => Except.error (- EIO)) (fun _ => none)).opens = [] ∧
    (erofs_init_devices 100 8 ["/dev/x"] none false 1
        (fun _ => Except.error (- EIO)) (fun _ => none)).total_blocks = 100 := by
  decide

end Erofs
